import Mathlib

/-!
Verification of the two utility scripts in this repository against their
specification: the transcription relay (whisper_api_debug.py) and the icon
generator (generate_icons.py). Both scripts are embedded shallowly: the
relay handler becomes a pure function over an explicit environment that
records the outcome of the fallible steps (file write, subprocess run), and
the icon generator becomes a pure function from an abstract image to the
list of files it saves, with the imaging-library calls modelled by their
documented effect on image dimensions, mode and resampling provenance.
-/

/- ===== Transcription relay (whisper_api_debug.py) ===== -/

/-- Result of subprocess.run with capture_output=True, text=True: the exit
code and the captured standard output and standard error as text. -/
structure SubprocResult where
  returncode : Int
  stdout : String
  stderr : String
deriving DecidableEq

/-- A JSON value as used by the endpoints of this service: a string or an
array of strings (the endpoint list of the root route). -/
inductive JVal where
  | str (s : String)
  | arr (xs : List String)
deriving DecidableEq

/-- An HTTP response of the relay: a JSON object body with a status code
(JSONResponse or a plain dict return), or an HTTPException carrying a
status code and a detail string. -/
inductive Response where
  | json (status : Nat) (body : List (String × JVal))
  | httpError (status : Nat) (detail : String)
deriving DecidableEq

/-- Status code of a response. -/
def Response.status : Response → Nat
  | .json s _ => s
  | .httpError s _ => s

/-- Look a key up in the JSON object body of a response. -/
def Response.bodyLookup (r : Response) (k : String) : Option JVal :=
  match r with
  | .json _ body => body.lookup k
  | .httpError _ _ => none

/-- WHISPER_EXECUTABLE from whisper_api_debug.py: "./main.exe" when
os.name is "nt" (Windows), "./main" otherwise. -/
def WHISPER_EXECUTABLE (osName : String) : String :=
  if osName = "nt" then "./main.exe" else "./main"

/-- MODEL_PATH constant from whisper_api_debug.py. -/
def MODEL_PATH : String := "models/ggml-small.en.bin"

/-- The fixed temporary path audio_path = "temp_audio.wav" used by the
transcribe handler for every request. -/
def audio_path : String := "temp_audio.wav"

/-- The argument vector passed to subprocess.run by the transcribe
handler: [WHISPER_EXECUTABLE, "-m", MODEL_PATH, "-f", audio_path, "-nt"]. -/
def transcribeArgv (osName : String) : List String :=
  [WHISPER_EXECUTABLE osName, "-m", MODEL_PATH, "-f", audio_path, "-nt"]

/-- Characters removed by Python str.strip(): the ASCII whitespace
characters space, tab, newline, carriage return, vertical tab and form
feed. (str.strip also removes some further Unicode whitespace code
points; those are not represented here.) -/
def isPySpace (c : Char) : Bool :=
  c == ' ' || c == '\t' || c == '\n' || c == '\r' || c.toNat == 11 || c.toNat == 12

/-- Python str.strip(): remove leading and trailing whitespace. -/
def pyStrip (s : String) : String :=
  ⟨((s.data.dropWhile isPySpace).reverse.dropWhile isPySpace).reverse⟩

/-- The environment of one POST /transcribe request: the operating system
name, the uploaded bytes, whether writing them to the temporary path
succeeds (and the exception text when it does not), whether the temporary
file exists after a failed write (open may create the file before the
write fails), and the outcome of subprocess.run on a given argument
vector (Except.error models a launch failure such as a missing
executable). -/
structure TranscribeEnv where
  osName : String
  content : List Nat
  writeOk : Bool
  writeErrMsg : String
  tempAfterFailedWrite : Bool
  run : List String → Except String SubprocResult

/-- Observable outcome of one POST /transcribe request: the HTTP response,
the temporary path actually written (none when the write failed), the
argument vector passed to subprocess.run (none when it was never
invoked), and whether the temporary file remains on disk afterwards. -/
structure HandlerOutcome where
  response : Response
  writtenPath : Option String
  argvUsed : Option (List String)
  tempRemains : Bool

/-- The transcribe_audio handler of whisper_api_debug.py. The uploaded
bytes are written to the fixed path audio_path; the whisper executable is
run; on non-zero exit an exception "Whisper failed: {stderr}" is raised
before the os.remove call, caught by the broad except and re-raised as
HTTPException(500, str(e)), so the temporary file is not removed on that
path; on exit code 0 the file is removed (modelled as succeeding: the
handler is sequential and just wrote the file) and JSONResponse (status
200) with {"text": stdout.strip()} is returned. A subprocess launch
failure likewise surfaces as a 500 with the exception text and leaves the
file in place. -/
def transcribe_audio (env : TranscribeEnv) : HandlerOutcome :=
  if env.writeOk then
    match env.run (transcribeArgv env.osName) with
    | Except.error e =>
        { response := Response.httpError 500 e
          writtenPath := some audio_path
          argvUsed := some (transcribeArgv env.osName)
          tempRemains := true }
    | Except.ok r =>
        if r.returncode ≠ 0 then
          { response := Response.httpError 500 ("Whisper failed: " ++ r.stderr)
            writtenPath := some audio_path
            argvUsed := some (transcribeArgv env.osName)
            tempRemains := true }
        else
          { response := Response.json 200 [("text", JVal.str (pyStrip r.stdout))]
            writtenPath := some audio_path
            argvUsed := some (transcribeArgv env.osName)
            tempRemains := false }
  else
    { response := Response.httpError 500 env.writeErrMsg
      writtenPath := none
      argvUsed := none
      tempRemains := env.tempAfterFailedWrite }

/-- The health_check handler: a static object, computed without consulting
the environment. -/
def health_check : Response :=
  Response.json 200 [("status", JVal.str "ok"), ("model", JVal.str "whisper.cpp base.en")]

/-- The root handler: static service metadata. -/
def rootEndpoint : Response :=
  Response.json 200
    [("name", JVal.str "Whisper STT API for ASTRAL"),
     ("version", JVal.str "1.0"),
     ("endpoints", JVal.arr ["/health", "/transcribe"])]

/-- The three routes of the service. -/
inductive Route where
  | transcribe
  | health
  | root

/-- Route dispatch: only the transcribe route consults the environment
(which includes, through run, whether the external executable exists). -/
def handleRequest (env : TranscribeEnv) : Route → Response
  | Route.transcribe => (transcribe_audio env).response
  | Route.health => health_check
  | Route.root => rootEndpoint

/- ===== Icon generator (generate_icons.py) ===== -/

/-- Resampling filters of the imaging library (Image.Resampling). -/
inductive Resampling where
  | NEAREST
  | BILINEAR
  | BICUBIC
  | LANCZOS
deriving DecidableEq

/-- An in-memory raster image: its dimensions, its pixel mode, and (for
derived images) the resampling filter that produced it, recording the
provenance of each output. Pixel data itself plays no role in the
properties below and is not represented. -/
structure Image where
  width : Nat
  height : Nat
  mode : String
  resampledWith : Option Resampling
deriving DecidableEq

instance : Inhabited Image := ⟨⟨0, 0, "RGBA", none⟩⟩

/-- Image.convert: same dimensions, new pixel mode. -/
def Image.convert (img : Image) (m : String) : Image :=
  { img with mode := m }

/-- Image.resize: the result has exactly the requested dimensions, keeps
the pixel mode, and records the filter used. -/
def Image.resize (img : Image) (size : Nat × Nat) (f : Resampling) : Image :=
  { img with width := size.1, height := size.2, resampledWith := some f }

/-- The file formats written by generate_icons: PNG, or ICO saved with a
sizes keyword listing the requested embedded resolutions. -/
inductive FileFormat where
  | PNG
  | ICO (sizes : List (Nat × Nat))
deriving DecidableEq

/-- A file written to disk: its path, its format, and the image object it
was saved from. -/
structure SavedFile where
  path : String
  format : FileFormat
  image : Image
deriving DecidableEq

/-- os.path.join for the forward-slash paths used by the script. -/
def pathJoin (dir file : String) : String := dir ++ "/" ++ file

/-- Lexicographic order on sizes, as used by sorted() on Python pairs. -/
def sizeLe (a b : Nat × Nat) : Bool :=
  a.1 < b.1 || (a.1 == b.1 && a.2 ≤ b.2)

def insertSorted (x : Nat × Nat) : List (Nat × Nat) → List (Nat × Nat)
  | [] => [x]
  | y :: ys => if sizeLe x y then x :: y :: ys else y :: insertSorted x ys

/-- Insertion sort on sizes (total order, so the result is sorted). -/
def sortSizes : List (Nat × Nat) → List (Nat × Nat)
  | [] => []
  | x :: xs => insertSorted x (sortSizes xs)

/-- Modelled from the imaging library (Pillow) ICO save path, which the
repository calls with img.save(path, format=ICO, sizes=...). Per the
library documentation of the sizes argument, "Any sizes bigger than the
original size or 256 will be ignored": the encoder iterates over the
sorted set of requested sizes and skips any whose width or height exceeds
the dimensions of the saved base image or 256; the surviving sizes are
the resolutions embedded in the written file, in that order, smallest
first. -/
def icoWrittenSizes (base : Image) (sizes : List (Nat × Nat)) : List (Nat × Nat) :=
  (sortSizes sizes.eraseDups).filter
    (fun s => s.1 ≤ base.width && s.2 ≤ base.height && s.1 ≤ 256 && s.2 ≤ 256)

/-- The resolutions a written file contains when decoded: for an ICO file,
the sizes the encoder actually embedded; a PNG has no embedded size list. -/
def SavedFile.decodedIcoEntries (f : SavedFile) : List (Nat × Nat) :=
  match f.format with
  | FileFormat.ICO sizes => icoWrittenSizes f.image sizes
  | FileFormat.PNG => []

/-- Decoding a written raster file yields the dimensions of the image it
was saved from. -/
def SavedFile.decodedSize (f : SavedFile) : Nat × Nat :=
  (f.image.width, f.image.height)

/-- The three fixed (width, height, filename) triples of generate_icons. -/
def iconSizes : List (Nat × Nat × String) :=
  [(32, 32, "32x32.png"), (128, 128, "128x128.png"), (256, 256, "128x128@2x.png")]

/-- The six resolutions requested for the ICO file. -/
def ico_sizes : List (Nat × Nat) :=
  [(16, 16), (32, 32), (48, 48), (64, 64), (128, 128), (256, 256)]

/-- Mode normalization at the top of generate_icons: convert to RGBA
unless the source already is RGBA. -/
def normalizeRGBA (img : Image) : Image :=
  if img.mode ≠ "RGBA" then img.convert "RGBA" else img

/-- generate_icons from generate_icons.py: normalize the source to RGBA;
resize it to each of the three fixed sizes with the LANCZOS filter and
save each as a PNG under its fixed name; then resize it to the six ICO
resolutions with LANCZOS and save icon.ico from the first (16x16) of
those images with the full size list as the sizes argument. Returns the
files written, in order. -/
def generate_icons (sourceImg : Image) (output_dir : String) : List SavedFile :=
  iconSizes.map (fun s =>
    { path := pathJoin output_dir s.2.2
      format := FileFormat.PNG
      image := (normalizeRGBA sourceImg).resize (s.1, s.2.1) Resampling.LANCZOS })
  ++ [{ path := pathJoin output_dir "icon.ico"
        format := FileFormat.ICO ico_sizes
        image := (ico_sizes.map
          (fun s => (normalizeRGBA sourceImg).resize s Resampling.LANCZOS)).headI }]

/-- The fixed source path of the __main__ block. -/
def sourcePath : String := "src-tauri/icons/icon.png"

/-- The fixed output directory of the __main__ block. -/
def outputDir : String := "src-tauri/icons"

/-- The __main__ block of generate_icons.py: if the source path does not
exist, print an error and exit(1) before any processing; otherwise run
generate_icons under a broad try, exiting 1 if Image.open fails to decode
the source (which happens before any file is saved) and 0 on success.
Returns the exit code and the files written. -/
def iconMain (sourceExists : Bool) (decoded : Option Image) : Nat × List SavedFile :=
  if sourceExists then
    match decoded with
    | none => (1, [])
    | some img => (0, generate_icons img outputDir)
  else (1, [])

/- ===== Helper lemmas ===== -/

/-- The argument vector the handler passes to subprocess.run is fixed by
the operating system alone: some (transcribeArgv osName) whenever the
write succeeded, none otherwise. -/
theorem transcribe_argvUsed (env : TranscribeEnv) :
    (transcribe_audio env).argvUsed =
      if env.writeOk then some (transcribeArgv env.osName) else none := by
  unfold transcribe_audio
  cases hw : env.writeOk with
  | false => simp
  | true =>
    simp only [if_true]
    cases env.run (transcribeArgv env.osName) with
    | error e => rfl
    | ok r =>
      by_cases hc : r.returncode ≠ 0
      · simp [hc]
      · simp [hc]

/- ===== Claim theorems: transcription relay ===== -/

/-- C1: for every POST /transcribe request whose uploaded bytes are
written successfully and whose external subprocess exits with code 0, the
handler removes the temporary audio file and returns HTTP 200 with a JSON
object whose "text" field equals the subprocess standard output with
leading and trailing whitespace stripped. -/
theorem C1_transcribe_success (env : TranscribeEnv) (r : SubprocResult)
    (hw : env.writeOk = true)
    (hr : env.run (transcribeArgv env.osName) = Except.ok r)
    (hc : r.returncode = 0) :
    (transcribe_audio env).response
        = Response.json 200 [("text", JVal.str (pyStrip r.stdout))] ∧
      (transcribe_audio env).tempRemains = false := by
  unfold transcribe_audio
  rw [hw, hr]
  simp [hc]

/-- A concrete successful request: the write succeeds and the subprocess
exits 0 with stdout " hello world \n". -/
def envC1 : TranscribeEnv :=
  { osName := "posix"
    content := [1, 2, 3]
    writeOk := true
    writeErrMsg := ""
    tempAfterFailedWrite := true
    run := fun _ => Except.ok { returncode := 0, stdout := " hello world \n", stderr := "" } }

/-- Witness for C1 at envC1: 200 with the trimmed text, file removed. -/
theorem C1_transcribe_success_witness :
    (transcribe_audio envC1).response
        = Response.json 200 [("text", JVal.str "hello world")] ∧
      (transcribe_audio envC1).tempRemains = false := by
  have h := C1_transcribe_success envC1
    { returncode := 0, stdout := " hello world \n", stderr := "" } rfl rfl rfl
  exact ⟨by rw [h.1]; rfl, h.2⟩

/-- C2: for every POST /transcribe request whose external subprocess runs
and exits with a non-zero code, the handler responds with HTTP 500 and
the detail string includes the captured standard error (here: the stderr
text is a suffix of the detail, after the prefix "Whisper failed: "). -/
theorem C2_transcribe_nonzero_exit (env : TranscribeEnv) (r : SubprocResult)
    (hw : env.writeOk = true)
    (hr : env.run (transcribeArgv env.osName) = Except.ok r)
    (hc : r.returncode ≠ 0) :
    ∃ d, (transcribe_audio env).response = Response.httpError 500 d ∧
      ∃ a, d = a ++ r.stderr := by
  refine ⟨"Whisper failed: " ++ r.stderr, ?_, "Whisper failed: ", rfl⟩
  unfold transcribe_audio
  rw [hw, hr]
  simp [hc]

/-- A concrete failing request: the subprocess exits 1 with stderr
"model not found". -/
def envC2 : TranscribeEnv :=
  { osName := "posix"
    content := [7]
    writeOk := true
    writeErrMsg := ""
    tempAfterFailedWrite := true
    run := fun _ => Except.ok { returncode := 1, stdout := "", stderr := "model not found" } }

/-- Witness for C2 at envC2. -/
theorem C2_transcribe_nonzero_exit_witness :
    ∃ d, (transcribe_audio envC2).response = Response.httpError 500 d ∧
      ∃ a, d = a ++ "model not found" :=
  C2_transcribe_nonzero_exit envC2
    { returncode := 1, stdout := "", stderr := "model not found" } rfl rfl (by decide)

/-- A request on the error path: the write succeeds, the subprocess runs
and exits 1 with stderr "whisper error". -/
def envC6 : TranscribeEnv :=
  { osName := "posix"
    content := []
    writeOk := true
    writeErrMsg := ""
    tempAfterFailedWrite := true
    run := fun _ => Except.ok { returncode := 1, stdout := "", stderr := "whisper error" } }

/-- C6 counterexample: the claim says the temporary file is deleted on
every exit path, but at the concrete request envC6 (write succeeds,
subprocess exits non-zero) the handler answers 500 and the temporary file
remains on disk: the exception is raised before the os.remove call and
the except block performs no cleanup. -/
theorem C6_counterexample :
    (transcribe_audio envC6).tempRemains = true ∧
      (transcribe_audio envC6).response.status = 500 := by
  constructor <;> rfl

/-- C6 amended: after a successful write, the temporary audio file is
deleted by the end of the request only on the success path (subprocess
ran and exited 0); on the error paths (non-zero exit, or subprocess
launch failure) the file remains on disk. -/
theorem C6_temp_cleanup_amended (env : TranscribeEnv)
    (hw : env.writeOk = true) :
    ((∃ r, env.run (transcribeArgv env.osName) = Except.ok r ∧ r.returncode = 0) →
        (transcribe_audio env).tempRemains = false) ∧
      ((∃ r, env.run (transcribeArgv env.osName) = Except.ok r ∧ r.returncode ≠ 0) →
        (transcribe_audio env).tempRemains = true) ∧
      ((∃ e, env.run (transcribeArgv env.osName) = Except.error e) →
        (transcribe_audio env).tempRemains = true) := by
  refine ⟨?_, ?_, ?_⟩
  · rintro ⟨r, hr, hc⟩
    unfold transcribe_audio
    rw [hw, hr]
    simp [hc]
  · rintro ⟨r, hr, hc⟩
    unfold transcribe_audio
    rw [hw, hr]
    simp [hc]
  · rintro ⟨e, hr⟩
    unfold transcribe_audio
    rw [hw, hr]
    simp

/-- Witness for the amended C6: at envC1 (exit 0) the file is gone, at
envC6 (exit 1) it remains. -/
theorem C6_temp_cleanup_amended_witness :
    (transcribe_audio envC1).tempRemains = false ∧
      (transcribe_audio envC6).tempRemains = true :=
  ⟨(C6_temp_cleanup_amended envC1 rfl).1
      ⟨{ returncode := 0, stdout := " hello world \n", stderr := "" }, rfl, rfl⟩,
   (C6_temp_cleanup_amended envC6 rfl).2.1
      ⟨{ returncode := 1, stdout := "", stderr := "whisper error" }, rfl, by decide⟩⟩

/-- C7: every GET /health request returns HTTP 200 with a body containing
"status": "ok" and a model string, for every environment, hence
regardless of whether the external executable is present (executable
availability only enters the environment through run). -/
theorem C7_health_always_ok (env : TranscribeEnv) :
    (handleRequest env Route.health).status = 200 ∧
      (handleRequest env Route.health).bodyLookup "status" = some (JVal.str "ok") ∧
      (handleRequest env Route.health).bodyLookup "model"
        = some (JVal.str "whisper.cpp base.en") := by
  refine ⟨rfl, ?_, ?_⟩ <;> rfl

/-- C8: whenever a POST /transcribe request invokes the external
executable, the argument vector is exactly [executable, "-m", MODEL_PATH,
"-f", audio_path, "-nt"], where the executable is ./main.exe when the
operating system is Windows ("nt") and ./main otherwise, and audio_path
is the same fixed temporary path "temp_audio.wav", independent of the
request. -/
theorem C8_subprocess_argv (env : TranscribeEnv) (a : List String)
    (h : (transcribe_audio env).argvUsed = some a) :
    a = [(if env.osName = "nt" then "./main.exe" else "./main"),
         "-m", "models/ggml-small.en.bin", "-f", "temp_audio.wav", "-nt"] ∧
      a.get? 4 = some audio_path := by
  have hbranch := transcribe_argvUsed env
  rw [h] at hbranch
  have ha : a = transcribeArgv env.osName := by
    cases hw : env.writeOk with
    | false => rw [hw] at hbranch; simp at hbranch
    | true =>
      rw [hw] at hbranch
      simp at hbranch
      exact hbranch
  subst ha
  exact ⟨rfl, rfl⟩

/-- Witness for C8 at envC1 (a non-Windows request): the executable is
./main and the temporary path argument is temp_audio.wav. -/
theorem C8_subprocess_argv_witness :
    transcribeArgv "posix"
        = [(if "posix" = "nt" then "./main.exe" else "./main"),
           "-m", "models/ggml-small.en.bin", "-f", "temp_audio.wav", "-nt"] ∧
      (transcribeArgv "posix").get? 4 = some audio_path := by
  have h := C8_subprocess_argv envC1 (transcribeArgv "posix") rfl
  exact h

/-- C10: the model string reported by GET /health is the constant
"whisper.cpp base.en", while the model path passed to the subprocess via
the "-m" argument by POST /transcribe is MODEL_PATH =
"models/ggml-small.en.bin"; the two strings differ, so the health
response does not reflect the model in use. -/
theorem C10_health_model_mismatch :
    health_check.bodyLookup "model" = some (JVal.str "whisper.cpp base.en") ∧
      MODEL_PATH = "models/ggml-small.en.bin" ∧
      (∀ osName, (transcribeArgv osName).get? 2 = some MODEL_PATH) ∧
      "whisper.cpp base.en" ≠ MODEL_PATH := by
  refine ⟨rfl, rfl, fun _ => rfl, by decide⟩

/- ===== Claim theorems: icon generator ===== -/

/-- Whether a written file is a PNG. -/
def SavedFile.isPNG (f : SavedFile) : Bool :=
  match f.format with
  | FileFormat.PNG => true
  | FileFormat.ICO _ => false

/-- Mode normalization always yields an RGBA image. -/
theorem normalizeRGBA_mode (img : Image) : (normalizeRGBA img).mode = "RGBA" := by
  unfold normalizeRGBA Image.convert
  by_cases h : img.mode = "RGBA" <;> simp [h]

/-- The files generate_icons writes, in full: the three PNGs at their
fixed sizes and icon.ico saved from the 16x16 resized image, all derived
from the RGBA-normalized source with the LANCZOS filter. -/
theorem generate_icons_eq (img : Image) (d : String) :
    generate_icons img d
      = [⟨pathJoin d "32x32.png", FileFormat.PNG, ⟨32, 32, "RGBA", some Resampling.LANCZOS⟩⟩,
         ⟨pathJoin d "128x128.png", FileFormat.PNG, ⟨128, 128, "RGBA", some Resampling.LANCZOS⟩⟩,
         ⟨pathJoin d "128x128@2x.png", FileFormat.PNG, ⟨256, 256, "RGBA", some Resampling.LANCZOS⟩⟩,
         ⟨pathJoin d "icon.ico", FileFormat.ICO ico_sizes,
          ⟨16, 16, "RGBA", some Resampling.LANCZOS⟩⟩] := by
  have hm : (normalizeRGBA img).mode = "RGBA" := normalizeRGBA_mode img
  simp [generate_icons, iconSizes, ico_sizes, Image.resize, List.headI, hm]

/-- C4: for every source image, generate_icons produces exactly three PNG
files, whose decoded dimensions are exactly the declared 32x32, 128x128
and 256x256, each resized with the LANCZOS filter from the
RGBA-normalized source. -/
theorem C4_png_outputs (img : Image) (d : String) :
    ((generate_icons img d).filter SavedFile.isPNG).map
        (fun f => (f.path, SavedFile.decodedSize f, f.image.mode, f.image.resampledWith))
      = [(pathJoin d "32x32.png", (32, 32), "RGBA", some Resampling.LANCZOS),
         (pathJoin d "128x128.png", (128, 128), "RGBA", some Resampling.LANCZOS),
         (pathJoin d "128x128@2x.png", (256, 256), "RGBA", some Resampling.LANCZOS)] := by
  rw [generate_icons_eq]
  rfl

/-- A concrete decodable source image: 512x512, RGB mode. -/
def srcImage512 : Image := { width := 512, height := 512, mode := "RGB", resampledWith := none }

/-- C3 is refuted by the code as written: at the concrete source image
srcImage512, the generated icon.ico decodes to the single entry 16x16,
not to entries at all six fixed resolutions. The script saves the ICO
from ico_images[0], the 16x16 resized image, and the imaging library
ignores every requested size larger than that base image, so the five
larger resolutions are dropped. The 16x16 primary is present, but the
container does not hold the six resolutions the script requests (and its
own comment announces). -/
theorem C3_ico_entries_bug :
    ((generate_icons srcImage512 outputDir).map
        (fun f => (f.path, SavedFile.decodedIcoEntries f)))
      = [("src-tauri/icons/32x32.png", []),
         ("src-tauri/icons/128x128.png", []),
         ("src-tauri/icons/128x128@2x.png", []),
         ("src-tauri/icons/icon.ico", [(16, 16)])] ∧
      [((16 : Nat), (16 : Nat))] ≠ ico_sizes := by
  constructor
  · decide
  · decide

/-- C5: when the fixed source path does not exist, the program exits with
status code 1 and writes no output files, whatever an attempted decode
would have yielded. -/
theorem C5_missing_source (decoded : Option Image) :
    iconMain false decoded = (1, []) := rfl

/-- C9: for every source image, the third PNG output is written under the
filename 128x128@2x.png yet decodes to 256x256 pixels, so that fixed
filename does not match the pixel dimensions of the image it contains
(256 is not 128). -/
theorem C9_misnamed_output (img : Image) (d : String) :
    ((generate_icons img d).map (fun f => (f.path, SavedFile.decodedSize f))).get? 2
        = some (pathJoin d "128x128@2x.png", (256, 256)) ∧
      ((256, 256) : Nat × Nat) ≠ (128, 128) := by
  rw [generate_icons_eq]
  exact ⟨rfl, by decide⟩
